import Mathlib

/-!
Verification of the deterministic post-processing engine of the diabetes
risk prediction service (`ml-model/app.py`).

The embedding models Python floats as rationals (`ℚ`).  A measurement field
holds `0` when the value is absent or unparsable, mirroring the source's
sentinel convention (`parse_float` returns `0.0` and every rule guards with
Python truthiness, i.e. `x ≠ 0`).  Context strings default to the empty
string, mirroring `(context.get(...) or "")`.  Recommendation and insight
message texts are represented by one constructor per distinct source
message, carrying the numeric values that the source interpolates into the
string; the exact presentation-layer formatting (`f"{x:.1f}"`, rounding to
two decimals for JSON) is not modelled.
-/

namespace DiabetesApp

/-- Python's `str.lower()` for the ASCII strings the rules compare against
(structurally recursive so that concrete evaluation goes through the kernel). -/
def pyLower (s : String) : String := ⟨s.data.map Char.toLower⟩

/-!
The source's non-integer threshold constants, written as explicit reduced
fractions so that concrete comparisons reduce in the kernel (the `ℚ`
arithmetic of `OfScientific` is `@[irreducible]`).  The equations right
after each constant certify the decimal value that appears in `app.py`.
-/

/-- The threshold `18.5`. -/
def q18_5 : ℚ := Rat.mk' 37 2

/-- The threshold `24.9`. -/
def q24_9 : ℚ := Rat.mk' 249 10

/-- The threshold `5.7`. -/
def q5_7 : ℚ := Rat.mk' 57 10

/-- The threshold `6.5`. -/
def q6_5 : ℚ := Rat.mk' 13 2

/-- The confidence cap `99.5`. -/
def q99_5 : ℚ := Rat.mk' 199 2

/-- `clamp` from `app.py`: `max(min_value, min(max_value, value))`. -/
def clamp (value min_value max_value : ℚ) : ℚ :=
  max min_value (min max_value value)

/-- The ordered `(upper bound, label)` table `RISK_THRESHOLDS` from `app.py`. -/
def RISK_THRESHOLDS : List (ℚ × String) :=
  [(20, "Low"), (50, "Moderate"), (75, "High"), (101, "Very High")]

/-- `categorize_risk` from `app.py`: the first table entry whose bound exceeds
the score wins; the fallthrough returns `"Very High"`. -/
def categorize_risk (score : ℚ) : String :=
  match RISK_THRESHOLDS.find? (fun t => decide (score < t.1)) with
  | some t => t.2
  | none => "Very High"

/-- The patient measurement view (`patient_data` in `app.py`).  Every field is
a rational with `0` meaning "absent"; `riskScore` is `0` until the orchestrator
merges the adjusted score in (`patient_data_with_risk`). -/
structure Payload where
  pregnancies : ℚ := 0
  glucose : ℚ := 0
  bloodPressure : ℚ := 0
  skinThickness : ℚ := 0
  insulin : ℚ := 0
  bmi : ℚ := 0
  diabetesPedigreeFunction : ℚ := 0
  age : ℚ := 0
  systolicBP : ℚ := 0
  diastolicBP : ℚ := 0
  hba1c : ℚ := 0
  riskScore : ℚ := 0
deriving DecidableEq, Repr

/-- The lifestyle/demographic context (`context_flags` in `app.py`).  Strings
are stored raw and lowercased at each use site, as in the source; an absent
value is the empty string (`(... or "")`). -/
structure Context where
  gender : String := ""
  exerciseFrequency : String := ""
  smokingStatus : String := ""
  alcoholConsumption : String := ""
  familyHistoryFlag : Bool := false
  diabetesStatus : String := ""
deriving DecidableEq, Repr

/-! ### Contextual Adjustment Engine (`apply_contextual_adjustments`)

The source accumulates `adjustments` and `healthy_indicators` over eight
signals in a fixed order.  Each signal is one step on the running pair
`(adjustments, healthy_indicators)`. -/

/-- BMI banded rule of `apply_contextual_adjustments`. -/
def bmiAdjStep (bmi : ℚ) (st : ℚ × Nat) : ℚ × Nat :=
  if bmi ≠ 0 then
    if q18_5 ≤ bmi ∧ bmi ≤ q24_9 then (st.1 - 7, st.2 + 1)
    else if 30 ≤ bmi then (st.1 + 10, st.2)
    else if 25 ≤ bmi then (st.1 + 5, st.2)
    else st
  else st

/-- Glucose banded rule of `apply_contextual_adjustments`. -/
def glucoseAdjStep (glucose : ℚ) (st : ℚ × Nat) : ℚ × Nat :=
  if glucose ≠ 0 then
    if 70 ≤ glucose ∧ glucose ≤ 99 then (st.1 - 6, st.2 + 1)
    else if 126 ≤ glucose then (st.1 + 10, st.2)
    else if 110 ≤ glucose then (st.1 + 5, st.2)
    else st
  else st

/-- HbA1c banded rule of `apply_contextual_adjustments`. -/
def hba1cAdjStep (hba1c : ℚ) (st : ℚ × Nat) : ℚ × Nat :=
  if hba1c ≠ 0 then
    if hba1c < q5_7 then (st.1 - 4, st.2 + 1)
    else if q6_5 ≤ hba1c then (st.1 + 10, st.2)
    else st
  else st

/-- Blood-pressure rule of `apply_contextual_adjustments` (needs both
systolic and diastolic truthy). -/
def bpAdjStep (systolic diastolic : ℚ) (st : ℚ × Nat) : ℚ × Nat :=
  if systolic ≠ 0 ∧ diastolic ≠ 0 then
    if systolic < 120 ∧ diastolic < 80 then (st.1 - 3, st.2 + 1)
    else if 140 ≤ systolic ∨ 90 ≤ diastolic then (st.1 + 6, st.2)
    else st
  else st

/-- Exercise-frequency rule of `apply_contextual_adjustments`. -/
def exerciseAdjStep (exerciseFrequency : String) (st : ℚ × Nat) : ℚ × Nat :=
  let exercise := pyLower exerciseFrequency
  if exercise ∈ (["moderate", "heavy"] : List String) then (st.1 - 4, st.2 + 1)
  else if exercise ∈ (["none", "light"] : List String) then (st.1 + 2, st.2)
  else st

/-- Smoking-status rule of `apply_contextual_adjustments`. -/
def smokingAdjStep (smokingStatus : String) (st : ℚ × Nat) : ℚ × Nat :=
  let smoking := pyLower smokingStatus
  if smoking = "never" then (st.1 - 2, st.2 + 1)
  else if smoking = "current" then (st.1 + 5, st.2)
  else st

/-- Alcohol-consumption rule of `apply_contextual_adjustments` (no healthy
counter increment in the source). -/
def alcoholAdjStep (alcoholConsumption : String) (st : ℚ × Nat) : ℚ × Nat :=
  let alcohol := pyLower alcoholConsumption
  if alcohol ∈ (["none", "light"] : List String) then (st.1 - 1, st.2)
  else if alcohol = "heavy" then (st.1 + 3, st.2)
  else st

/-- Family-history rule of `apply_contextual_adjustments`: a falsy
`familyHistoryFlag` subtracts 2 and counts as a healthy indicator. -/
def familyAdjStep (familyHistoryFlag : Bool) (st : ℚ × Nat) : ℚ × Nat :=
  if familyHistoryFlag then st else (st.1 - 2, st.2 + 1)

/-- The accumulated `(adjustments, healthy_indicators)` pair before the
family-history signal (the first seven signals in source order). -/
def preFamilyTotals (payload : Payload) (context : Context) : ℚ × Nat :=
  alcoholAdjStep context.alcoholConsumption
    (smokingAdjStep context.smokingStatus
      (exerciseAdjStep context.exerciseFrequency
        (bpAdjStep payload.systolicBP payload.diastolicBP
          (hba1cAdjStep payload.hba1c
            (glucoseAdjStep payload.glucose
              (bmiAdjStep payload.bmi (0, 0)))))))

/-- The full accumulated `(adjustments, healthy_indicators)` pair of
`apply_contextual_adjustments`. -/
def adjustmentTotals (payload : Payload) (context : Context) : ℚ × Nat :=
  familyAdjStep context.familyHistoryFlag (preFamilyTotals payload context)

/-- `apply_contextual_adjustments` from `app.py`: the adjusted score is
`clamp(base_score + adjustments)` and the healthy-indicator count rides
along. -/
def apply_contextual_adjustments (base_score : ℚ) (payload : Payload)
    (context : Context) : ℚ × Nat :=
  let t := adjustmentTotals payload context
  (clamp (base_score + t.1) 0 100, t.2)

/-- Confidence calibration block of `predict_diabetes_risk`
(`app.py` lines 495-500). -/
def calibrate (base_confidence : ℚ) (healthy_indicators : Nat)
    (adjusted_risk_score : ℚ) : ℚ :=
  let confidence_score := base_confidence
  let confidence_score :=
    if 4 ≤ healthy_indicators ∧ adjusted_risk_score < 20 then
      max confidence_score 96
    else if 2 ≤ healthy_indicators then max confidence_score 90
    else confidence_score
  clamp confidence_score 60 q99_5

/-! ### Recommendation Synthesizer (`generate_personalized_recommendations`)

Each distinct recommendation message of the source becomes one constructor,
carrying the numeric values the source interpolates into the text. -/

/-- One recommendation line; constructors follow the order the messages
appear in `generate_personalized_recommendations`. -/
inductive Rec where
  | bmiUnderweight (bmi : ℚ)
  | bmiObese (bmi : ℚ)
  | bmiOverweight (bmi : ℚ)
  | bmiHealthy (bmi : ℚ)
  | glucoseVeryHighMgmt (g : ℚ)
  | glucoseElevatedMgmt (g : ℚ)
  | glucoseLowMgmt (g : ℚ)
  | glucoseTargetMgmt (g : ℚ)
  | glucoseSlightlyAboveMgmt (g : ℚ)
  | glucoseDiabetesRange (g : ℚ)
  | glucosePrediabetes (g : ℚ)
  | glucoseLowPrev (g : ℚ)
  | glucoseExcellent (g : ℚ)
  | hba1cVeryHighMgmt (h : ℚ)
  | hba1cAboveTargetMgmt (h : ℚ)
  | hba1cSlightlyAboveMgmt (h : ℚ)
  | hba1cAtTargetMgmt (h : ℚ)
  | hba1cDiabetes (h : ℚ)
  | hba1cPrediabetes (h : ℚ)
  | hba1cGood (h : ℚ)
  | bpHypertension (s d : ℚ)
  | bpElevated (s d : ℚ)
  | bpOptimal (s d : ℚ)
  | insulinElevated (i : ℚ)
  | insulinLow (i : ℚ)
  | insulinNormal (i : ℚ)
  | exerciseIncrease
  | exerciseContinue
  | exercisePositive
  | smokingQuit
  | smokingFormer
  | smokingPositive
  | alcoholReduce
  | alcoholPositive
  | familyHistoryScreening
  | familyHistoryPositive
  | age45Screening (age : ℚ)
  | age35Prevention
  | bandVeryHighMgmt
  | bandElevatedMgmt
  | bandModerateMgmt
  | bandGoodControlMgmt
  | bandVeryHighPrev
  | bandElevatedPrev
  | bandModeratePrev
  | hba1cTargetReminder
  | glucoseLogReminder
  | medicationReminder
  | checkupReminder
deriving DecidableEq, Repr

/-- The three mutable lists of `generate_personalized_recommendations`:
`critical_issues`, `positive_factors` (both tagged with the metric name,
as in the source), and `recommendations`. -/
structure RecState where
  criticals : List (String × Rec)
  positives : List (String × Rec)
  recs : List Rec
deriving DecidableEq, Repr

/-- `diabetes_status in {"type1", "type2", "gestational", "other"}` after
lowercasing (`has_diabetes` in the source). -/
def hasDiabetesStatus (diabetesStatus : String) : Bool :=
  decide (pyLower diabetesStatus ∈
    (["type1", "type2", "gestational", "other"] : List String))

/-- BMI classification of `generate_personalized_recommendations`. -/
def bmiRecStep (bmi : ℚ) (st : RecState) : RecState :=
  if bmi ≠ 0 then
    if bmi < q18_5 then
      { st with criticals := st.criticals ++ [("BMI", .bmiUnderweight bmi)] }
    else if 30 < bmi then
      { st with criticals := st.criticals ++ [("BMI", .bmiObese bmi)] }
    else if q24_9 < bmi then
      { st with recs := st.recs ++ [.bmiOverweight bmi] }
    else
      { st with positives := st.positives ++ [("BMI", .bmiHealthy bmi)] }
  else st

/-- Glucose classification of `generate_personalized_recommendations`,
branching on diagnosed-vs-at-risk mode. -/
def glucoseRecStep (has_diabetes : Bool) (glucose : ℚ) (st : RecState) : RecState :=
  if glucose ≠ 0 then
    if has_diabetes then
      if 180 ≤ glucose then
        { st with criticals := st.criticals ++ [("Glucose", .glucoseVeryHighMgmt glucose)] }
      else if 140 ≤ glucose then
        { st with criticals := st.criticals ++ [("Glucose", .glucoseElevatedMgmt glucose)] }
      else if glucose < 70 then
        { st with criticals := st.criticals ++ [("Glucose", .glucoseLowMgmt glucose)] }
      else if 70 ≤ glucose ∧ glucose ≤ 130 then
        { st with positives := st.positives ++ [("Glucose", .glucoseTargetMgmt glucose)] }
      else
        { st with recs := st.recs ++ [.glucoseSlightlyAboveMgmt glucose] }
    else
      if 126 ≤ glucose then
        { st with criticals := st.criticals ++ [("Glucose", .glucoseDiabetesRange glucose)] }
      else if 100 ≤ glucose then
        { st with criticals := st.criticals ++ [("Glucose", .glucosePrediabetes glucose)] }
      else if glucose < 70 then
        { st with recs := st.recs ++ [.glucoseLowPrev glucose] }
      else
        { st with positives := st.positives ++ [("Glucose", .glucoseExcellent glucose)] }
  else st

/-- HbA1c classification of `generate_personalized_recommendations`,
branching on diagnosed-vs-at-risk mode. -/
def hba1cRecStep (has_diabetes : Bool) (hba1c : ℚ) (st : RecState) : RecState :=
  if hba1c ≠ 0 then
    if has_diabetes then
      if 9 ≤ hba1c then
        { st with criticals := st.criticals ++ [("HbA1c", .hba1cVeryHighMgmt hba1c)] }
      else if 8 ≤ hba1c then
        { st with criticals := st.criticals ++ [("HbA1c", .hba1cAboveTargetMgmt hba1c)] }
      else if 7 ≤ hba1c then
        { st with recs := st.recs ++ [.hba1cSlightlyAboveMgmt hba1c] }
      else
        { st with positives := st.positives ++ [("HbA1c", .hba1cAtTargetMgmt hba1c)] }
    else
      if q6_5 ≤ hba1c then
        { st with criticals := st.criticals ++ [("HbA1c", .hba1cDiabetes hba1c)] }
      else if q5_7 ≤ hba1c then
        { st with criticals := st.criticals ++ [("HbA1c", .hba1cPrediabetes hba1c)] }
      else
        { st with positives := st.positives ++ [("HbA1c", .hba1cGood hba1c)] }
  else st

/-- Blood-pressure classification of `generate_personalized_recommendations`. -/
def bpRecStep (systolic diastolic : ℚ) (st : RecState) : RecState :=
  if systolic ≠ 0 ∧ diastolic ≠ 0 then
    if 140 ≤ systolic ∨ 90 ≤ diastolic then
      { st with criticals := st.criticals ++ [("Blood Pressure", .bpHypertension systolic diastolic)] }
    else if 130 ≤ systolic ∨ 80 ≤ diastolic then
      { st with recs := st.recs ++ [.bpElevated systolic diastolic] }
    else
      { st with positives := st.positives ++ [("Blood Pressure", .bpOptimal systolic diastolic)] }
  else st

/-- Insulin classification of `generate_personalized_recommendations`
(never produces a critical issue). -/
def insulinRecStep (insulin : ℚ) (st : RecState) : RecState :=
  if insulin ≠ 0 then
    if 25 < insulin then
      { st with recs := st.recs ++ [.insulinElevated insulin] }
    else if insulin < 2 then
      { st with recs := st.recs ++ [.insulinLow insulin] }
    else
      { st with positives := st.positives ++ [("Insulin", .insulinNormal insulin)] }
  else st

/-- Exercise lifestyle rule (source lines 222-229), acting on the pair
`(recommendations, positive_factors)`. -/
def exerciseRecStep (exerciseFrequency : String) (risk_score : ℚ)
    (rp : List Rec × List (String × Rec)) : List Rec × List (String × Rec) :=
  let exercise := pyLower exerciseFrequency
  if exercise ∈ (["none", "light"] : List String) then
    (rp.1 ++ [.exerciseIncrease], rp.2)
  else if exercise ∈ (["moderate", "active", "very_active", "athlete"] : List String) then
    if risk_score < 30 then (rp.1, rp.2 ++ [("Exercise", .exercisePositive)])
    else (rp.1 ++ [.exerciseContinue], rp.2)
  else rp

/-- Smoking lifestyle rule (source lines 231-238). -/
def smokingRecStep (smokingStatus : String) (risk_score : ℚ)
    (rp : List Rec × List (String × Rec)) : List Rec × List (String × Rec) :=
  let smoking := pyLower smokingStatus
  if smoking ∈ (["current", "heavy"] : List String) then
    (rp.1 ++ [.smokingQuit], rp.2)
  else if smoking = "former" then (rp.1 ++ [.smokingFormer], rp.2)
  else if smoking = "never" then
    if risk_score < 30 then (rp.1, rp.2 ++ [("Smoking", .smokingPositive)])
    else rp
  else rp

/-- Alcohol lifestyle rule (source lines 240-245). -/
def alcoholRecStep (alcoholConsumption : String) (risk_score : ℚ)
    (rp : List Rec × List (String × Rec)) : List Rec × List (String × Rec) :=
  let alcohol := pyLower alcoholConsumption
  if alcohol = "heavy" then (rp.1 ++ [.alcoholReduce], rp.2)
  else if alcohol ∈ (["none", "light", "occasional"] : List String) then
    if risk_score < 30 then (rp.1, rp.2 ++ [("Alcohol", .alcoholPositive)])
    else rp
  else rp

/-- Family-history rule (source lines 248-252). -/
def familyRecStep (familyHistoryFlag : Bool) (risk_score : ℚ)
    (rp : List Rec × List (String × Rec)) : List Rec × List (String × Rec) :=
  if familyHistoryFlag then (rp.1 ++ [.familyHistoryScreening], rp.2)
  else if risk_score < 30 then
    (rp.1, rp.2 ++ [("Family History", .familyHistoryPositive)])
  else rp

/-- Age-banded rule (source lines 255-258). -/
def ageRecStep (age : ℚ) (recs : List Rec) : List Rec :=
  if 45 ≤ age then recs ++ [.age45Screening age]
  else if 35 ≤ age then recs ++ [.age35Prevention]
  else recs

/-- Positive-reinforcement loop (source lines 261-263): append each of the
first two positive factors only while the list holds fewer than 8 entries. -/
def addPositives (recs : List Rec) (positives : List (String × Rec)) : List Rec :=
  positives.foldl (fun acc p => if acc.length < 8 then acc ++ [p.2] else acc) recs

/-- Final assembly (source lines 266-291): insert the risk-band summary at
position 0 (always in management mode, only for score ≥ 25 in prevention
mode), then append the management reminders for diagnosed patients. -/
def bandAssembly (has_diabetes : Bool) (risk_score hba1c : ℚ)
    (recs : List Rec) : List Rec :=
  if has_diabetes then
    let recs :=
      if 75 ≤ risk_score then Rec.bandVeryHighMgmt :: recs
      else if 50 ≤ risk_score then Rec.bandElevatedMgmt :: recs
      else if 25 ≤ risk_score then Rec.bandModerateMgmt :: recs
      else Rec.bandGoodControlMgmt :: recs
    let recs :=
      if hba1c ≠ 0 ∧ 7 ≤ hba1c then recs ++ [Rec.hba1cTargetReminder] else recs
    recs ++ [Rec.glucoseLogReminder, Rec.medicationReminder, Rec.checkupReminder]
  else
    if 75 ≤ risk_score then Rec.bandVeryHighPrev :: recs
    else if 50 ≤ risk_score then Rec.bandElevatedPrev :: recs
    else if 25 ≤ risk_score then Rec.bandModeratePrev :: recs
    else recs

/-- Body of `generate_personalized_recommendations` with the context strings
and the computed `has_diabetes` flag already extracted (the source computes
`has_diabetes` once at the top and also computes `is_prediabetic`, which is
never read afterwards). -/
def genRecsCore (payload : Payload) (exerciseFrequency smokingStatus
    alcoholConsumption : String) (familyHistoryFlag has_diabetes : Bool) : List Rec :=
  let risk_score := payload.riskScore
  let st : RecState :=
    insulinRecStep payload.insulin
      (bpRecStep payload.systolicBP payload.diastolicBP
        (hba1cRecStep has_diabetes payload.hba1c
          (glucoseRecStep has_diabetes payload.glucose
            (bmiRecStep payload.bmi ⟨[], [], []⟩))))
  let recs := st.recs ++ (st.criticals.take 3).map Prod.snd
  let rp := exerciseRecStep exerciseFrequency risk_score (recs, st.positives)
  let rp := smokingRecStep smokingStatus risk_score rp
  let rp := alcoholRecStep alcoholConsumption risk_score rp
  let rp := familyRecStep familyHistoryFlag risk_score rp
  let recs := ageRecStep payload.age rp.1
  let recs := addPositives recs (rp.2.take 2)
  (bandAssembly has_diabetes risk_score payload.hba1c recs).take 8

/-- `generate_personalized_recommendations` from `app.py`. -/
def generate_personalized_recommendations (payload : Payload)
    (context : Context) : List Rec :=
  genRecsCore payload context.exerciseFrequency context.smokingStatus
    context.alcoholConsumption context.familyHistoryFlag
    (hasDiabetesStatus context.diabetesStatus)

/-! ### Metric Insight Builder (`build_metric_insights`)

The insight's `status`, `label` and `message` strings are taken verbatim
from the source; the formatted `valueLabel` (pure presentation) is not
modelled. -/

/-- One display insight (`status`/`label`/`message` of the source's
`insight(...)` helper). -/
structure Insight where
  status : String
  label : String
  message : String
deriving DecidableEq, Repr

/-- BMI entry of `build_metric_insights`. -/
def bmiInsightList (bmi : ℚ) : List (String × Insight) :=
  if bmi ≠ 0 then
    if q18_5 ≤ bmi ∧ bmi ≤ q24_9 then
      [("bmi", ⟨"good", "BMI", "Healthy range"⟩)]
    else if bmi < q18_5 then
      [("bmi", ⟨"warning", "BMI", "Below healthy range"⟩)]
    else
      [("bmi", ⟨"warning", "BMI", "Above healthy range"⟩)]
  else []

/-- Glucose entry of `build_metric_insights`. -/
def glucoseInsightList (glucose : ℚ) : List (String × Insight) :=
  if glucose ≠ 0 then
    if glucose < 100 then
      [("glucose", ⟨"good", "Glucose", "Normal fasting glucose"⟩)]
    else if glucose < 126 then
      [("glucose", ⟨"warning", "Glucose", "Borderline elevation"⟩)]
    else
      [("glucose", ⟨"critical", "Glucose", "Diabetes range"⟩)]
  else []

/-- Blood-pressure entry of `build_metric_insights`. -/
def bpInsightList (systolic diastolic : ℚ) : List (String × Insight) :=
  if systolic ≠ 0 ∧ diastolic ≠ 0 then
    if systolic < 120 ∧ diastolic < 80 then
      [("bloodPressure", ⟨"good", "Blood Pressure", "Optimal range"⟩)]
    else if systolic < 140 ∧ diastolic < 90 then
      [("bloodPressure", ⟨"warning", "Blood Pressure", "Elevated"⟩)]
    else
      [("bloodPressure", ⟨"critical", "Blood Pressure", "Hypertension range"⟩)]
  else []

/-- HbA1c entry of `build_metric_insights`. -/
def hba1cInsightList (hba1c : ℚ) : List (String × Insight) :=
  if hba1c ≠ 0 then
    if hba1c < q5_7 then
      [("hba1c", ⟨"good", "HbA1c", "Normal range"⟩)]
    else if hba1c < q6_5 then
      [("hba1c", ⟨"warning", "HbA1c", "Prediabetes range"⟩)]
    else
      [("hba1c", ⟨"critical", "HbA1c", "Diabetes range"⟩)]
  else []

/-- Insulin entry of `build_metric_insights`. -/
def insulinInsightList (insulin : ℚ) : List (String × Insight) :=
  if insulin ≠ 0 then
    if 2 ≤ insulin ∧ insulin ≤ 25 then
      [("insulin", ⟨"good", "Insulin", "Within typical fasting range"⟩)]
    else if insulin < 2 then
      [("insulin", ⟨"warning", "Insulin", "Below typical range"⟩)]
    else
      [("insulin", ⟨"warning", "Insulin", "Elevated fasting insulin"⟩)]
  else []

/-- `build_metric_insights` from `app.py`: the per-metric entries in source
insertion order (bmi, glucose, bloodPressure, hba1c, insulin).  The source's
`context` parameter is never read and is kept for shape. -/
def build_metric_insights (payload : Payload) (_ctx : Context) :
    List (String × Insight) :=
  bmiInsightList payload.bmi ++ glucoseInsightList payload.glucose ++
    bpInsightList payload.systolicBP payload.diastolicBP ++
    hba1cInsightList payload.hba1c ++ insulinInsightList payload.insulin

/-! ### Request model and the `/predict` operation (`predict_diabetes_risk`)

A JSON request body is an association list from field names to values.  A
value present but not a string where the source calls `.lower()` would raise
inside the handler (caught as a generic 500); such context values are
modelled as the empty string.  Python's `float(...)` on strings is modelled
for plain decimal literals (sign, digits, optional fraction); exponent
forms, `inf`/`nan` and underscores are not modelled. -/

/-- A JSON value as the handler sees it. -/
inductive ReqValue where
  | null
  | num (q : ℚ)
  | str (s : String)
  | bool (b : Bool)
deriving DecidableEq, Repr

/-- The request body: a JSON object. -/
abbrev RequestData := List (String × ReqValue)

/-- Python truthiness of a JSON value. -/
def truthy : ReqValue → Bool
  | .null => false
  | .num q => decide (q ≠ 0)
  | .str s => decide (s ≠ "")
  | .bool b => b

/-- `data.get(key)`: `none` when the key is absent. -/
def rget (data : RequestData) (key : String) : Option ReqValue :=
  (data.find? (fun p => p.1 = key)).map Prod.snd

/-- `data.get(key)` with Python's `None` made explicit. -/
def getD (data : RequestData) (key : String) : ReqValue :=
  (rget data key).getD .null

/-- Python's `x or y` on JSON values. -/
def pyOr (a b : ReqValue) : ReqValue := if truthy a then a else b

/-- Digit-list accumulator for `float(...)`: the value and the digit count,
`none` on a non-digit. -/
def decDigits? (cs : List Char) : Option (Nat × Nat) :=
  cs.foldl
    (fun acc c =>
      acc.bind fun vn =>
        if c.isDigit then some (10 * vn.1 + (c.toNat - 48), vn.2 + 1)
        else none)
    (some (0, 0))

/-- Python `float(s)` on a plain decimal literal (`[+-]digits[.digits]`,
surrounding whitespace allowed); `none` when unparsable. -/
def strToRat? (s : String) : Option ℚ :=
  let cs := (s.data.dropWhile Char.isWhitespace).reverse.dropWhile
    Char.isWhitespace |>.reverse
  let signed : Int × List Char :=
    match cs with
    | '-' :: rest => (-1, rest)
    | '+' :: rest => (1, rest)
    | rest => (1, rest)
  match (signed.2.splitOn '.').map decDigits? with
  | [some (v, n)] => if n = 0 then none else some (mkRat (signed.1 * v) 1)
  | [some (va, na), some (vb, nb)] =>
    if na + nb = 0 then none
    else some (mkRat (signed.1 * (va * 10 ^ nb + vb)) (10 ^ nb))
  | _ => none

/-- `parse_float` from `app.py`: `None` and `""` become `0`, unparsable
values become `0`, numbers pass through (`float(True) = 1`). -/
def parse_float : ReqValue → ℚ
  | .null => 0
  | .num q => q
  | .bool b => if b then 1 else 0
  | .str s => if s = "" then 0 else (strToRat? s).getD 0

/-- Context string extraction: a present string is kept, anything else
behaves as absent (see the section comment). -/
def ctxStrOf : ReqValue → String
  | .str s => s
  | _ => ""

/-- The `required_fields` list of `predict_diabetes_risk`. -/
def required_fields : List String :=
  ["age", "bmi", "glucose", "bloodPressure",
   "insulin", "skinThickness", "pregnancies", "familyHistory"]

/-- `missing_fields` of `predict_diabetes_risk`: the required field names not
present as keys of the request. -/
def missing_fields (data : RequestData) : List String :=
  required_fields.filter (fun f => decide (rget data f = none))

/-- `context_flags` construction of `predict_diabetes_risk`
(`app.py` lines 421-428). -/
def buildContext (data : RequestData) : Context :=
  { gender := pyLower (ctxStrOf (pyOr (getD data "gender") (.str ""))),
    exerciseFrequency := ctxStrOf (getD data "exerciseFrequency"),
    smokingStatus := ctxStrOf (getD data "smokingStatus"),
    alcoholConsumption := ctxStrOf (getD data "alcoholConsumption"),
    familyHistoryFlag := truthy (getD data "familyHistoryFlag"),
    diabetesStatus :=
      match rget data "diabetesStatus" with
      | none => "none"
      | some v => ctxStrOf v }

/-- `patient_data` construction of `predict_diabetes_risk`
(`app.py` lines 430-447): systolic/diastolic fall back to `bloodPressure`
via Python `or`, and a non-positive parsed HbA1c becomes `None` (modelled by
the `0` sentinel). -/
def buildPatientData (data : RequestData) : Payload :=
  let systolic_bp := parse_float (pyOr (getD data "systolicBP") (getD data "bloodPressure"))
  let diastolic_bp := parse_float (pyOr (getD data "diastolicBP") (getD data "bloodPressure"))
  let hba1c := parse_float (getD data "hba1c")
  { pregnancies := parse_float (getD data "pregnancies"),
    glucose := parse_float (getD data "glucose"),
    bloodPressure := parse_float (getD data "bloodPressure"),
    skinThickness := parse_float (getD data "skinThickness"),
    insulin := parse_float (getD data "insulin"),
    bmi := parse_float (getD data "bmi"),
    diabetesPedigreeFunction := parse_float (getD data "familyHistory"),
    age := parse_float (getD data "age"),
    systolicBP := systolic_bp,
    diastolicBP := diastolic_bp,
    hba1c := if 0 < hba1c then hba1c else 0,
    riskScore := 0 }

/-- The external classifier's output consumed by the handler (§6 of the
spec: `predict_risk` of the improved model). -/
structure RawPrediction where
  prediction : ℤ
  probNoDiabetes : ℚ
  probDiabetes : ℚ
  riskScore : ℚ
  confidenceScore : ℚ
deriving DecidableEq, Repr

/-- The handler's failure modes. -/
inductive PredictError where
  | modelNotLoaded
  | noData
  | invalidInput (missing : List String)
deriving DecidableEq, Repr

/-- The assembled response of `/predict` (presentation rounding to two
decimals not modelled). -/
structure PredictResult where
  riskScore : ℚ
  riskCategory : String
  confidenceScore : ℚ
  prediction : ℤ
  recommendations : List Rec
  metricInsights : List (String × Insight)
deriving DecidableEq, Repr

/-- The happy-path pipeline of `predict_diabetes_risk` after validation:
contextual adjustment, categorization, calibration, recommendations with the
adjusted score merged into the payload, and metric insights. -/
def assessResult (raw : RawPrediction) (data : RequestData) : PredictResult :=
  let context_flags := buildContext data
  let patient_data := buildPatientData data
  let ah := apply_contextual_adjustments raw.riskScore patient_data context_flags
  let risk_category := categorize_risk ah.1
  let confidence_score := calibrate raw.confidenceScore ah.2 ah.1
  let patient_data_with_risk := { patient_data with riskScore := ah.1 }
  let recommendations :=
    generate_personalized_recommendations patient_data_with_risk context_flags
  let metric_insights := build_metric_insights patient_data context_flags
  { riskScore := ah.1,
    riskCategory := risk_category,
    confidenceScore := confidence_score,
    prediction := raw.prediction,
    recommendations := recommendations,
    metricInsights := metric_insights }

/-- `predict_diabetes_risk` from `app.py`: model-loaded check, empty-body
check, required-field validation, then the scoring pipeline. -/
def predict_diabetes_risk (model_loaded : Bool) (raw : RawPrediction)
    (data : RequestData) : Except PredictError PredictResult :=
  if model_loaded then
    if data = [] then .error .noData
    else
      match missing_fields data with
      | [] => .ok (assessResult raw data)
      | ms => .error (.invalidInput ms)
  else .error .modelNotLoaded

/-! ### Specification-side definitions

These definitions restate conditions from the specification's words; the
theorems below compare them with the source-derived functions. -/

/-- The risk-band summary line the spec's 4-way band selects for a given
mode and adjusted score: diagnosed patients always get a line (the low band
is the maintenance message), at-risk patients only from score 25 up. -/
def riskBandLine (has_diabetes : Bool) (score : ℚ) : Option Rec :=
  if has_diabetes then
    some (if 75 ≤ score then .bandVeryHighMgmt
          else if 50 ≤ score then .bandElevatedMgmt
          else if 25 ≤ score then .bandModerateMgmt
          else .bandGoodControlMgmt)
  else
    if 75 ≤ score then some .bandVeryHighPrev
    else if 50 ≤ score then some .bandElevatedPrev
    else if 25 ≤ score then some .bandModeratePrev
    else none

/-- Whether a recommendation line is one of the critical-issue messages
(the messages the source ever places in `critical_issues`). -/
def isCriticalMsg : Rec → Bool
  | .bmiUnderweight _ | .bmiObese _
  | .glucoseVeryHighMgmt _ | .glucoseElevatedMgmt _ | .glucoseLowMgmt _
  | .glucoseDiabetesRange _ | .glucosePrediabetes _
  | .hba1cVeryHighMgmt _ | .hba1cAboveTargetMgmt _
  | .hba1cDiabetes _ | .hba1cPrediabetes _
  | .bpHypertension _ _ => true
  | _ => false

/-- Whether a recommendation line is a lifestyle, family-history, age, or
positive-factor line (the lines the source emits after the critical-issue
insertion point). -/
def isLateMsg : Rec → Bool
  | .bmiHealthy _ | .glucoseTargetMgmt _ | .glucoseExcellent _
  | .hba1cAtTargetMgmt _ | .hba1cGood _ | .bpOptimal _ _ | .insulinNormal _
  | .exerciseIncrease | .exerciseContinue | .exercisePositive
  | .smokingQuit | .smokingFormer | .smokingPositive
  | .alcoholReduce | .alcoholPositive
  | .familyHistoryScreening | .familyHistoryPositive
  | .age45Screening _ | .age35Prevention => true
  | _ => false

/-- The metric a per-metric message belongs to, in the evaluation order
BMI (0) → Glucose (1) → HbA1c (2) → Blood Pressure (3) → Insulin (4);
non-metric lines map to 5. -/
def metricIdx : Rec → Nat
  | .bmiUnderweight _ | .bmiObese _ | .bmiOverweight _ | .bmiHealthy _ => 0
  | .glucoseVeryHighMgmt _ | .glucoseElevatedMgmt _ | .glucoseLowMgmt _
  | .glucoseTargetMgmt _ | .glucoseSlightlyAboveMgmt _
  | .glucoseDiabetesRange _ | .glucosePrediabetes _
  | .glucoseLowPrev _ | .glucoseExcellent _ => 1
  | .hba1cVeryHighMgmt _ | .hba1cAboveTargetMgmt _ | .hba1cSlightlyAboveMgmt _
  | .hba1cAtTargetMgmt _ | .hba1cDiabetes _ | .hba1cPrediabetes _
  | .hba1cGood _ => 2
  | .bpHypertension _ _ | .bpElevated _ _ | .bpOptimal _ _ => 3
  | .insulinElevated _ | .insulinLow _ | .insulinNormal _ => 4
  | _ => 5

/-- Ordinal severity of the four risk categories. -/
def severity (label : String) : Nat :=
  if label = "Low" then 0
  else if label = "Moderate" then 1
  else if label = "High" then 2
  else 3

/-- Spec-side healthy band for BMI (present and in 18.5–24.9). -/
def bmiHealthyB (bmi : ℚ) : Bool := decide (bmi ≠ 0 ∧ q18_5 ≤ bmi ∧ bmi ≤ q24_9)

/-- Spec-side healthy band for glucose (present and in 70–99). -/
def glucoseHealthyB (glucose : ℚ) : Bool :=
  decide (glucose ≠ 0 ∧ 70 ≤ glucose ∧ glucose ≤ 99)

/-- Spec-side healthy band for HbA1c (present and below 5.7). -/
def hba1cHealthyB (hba1c : ℚ) : Bool := decide (hba1c ≠ 0 ∧ hba1c < q5_7)

/-- Spec-side healthy band for blood pressure (both present, sys < 120 and
dia < 80). -/
def bpHealthyB (systolic diastolic : ℚ) : Bool :=
  decide (systolic ≠ 0 ∧ diastolic ≠ 0 ∧ systolic < 120 ∧ diastolic < 80)

/-- Spec-side healthy band for exercise frequency. -/
def exerciseHealthyB (exerciseFrequency : String) : Bool :=
  decide (pyLower exerciseFrequency ∈ (["moderate", "heavy"] : List String))

/-- Spec-side healthy band for smoking status. -/
def smokingHealthyB (smokingStatus : String) : Bool :=
  decide (pyLower smokingStatus = "never")

/-- Spec-side healthy band for family history (flag absent or false). -/
def noFamilyHistoryB (familyHistoryFlag : Bool) : Bool := !familyHistoryFlag

/-- The number of healthy bands that fire: one per signal. -/
def healthySignalCount (payload : Payload) (context : Context) : Nat :=
  (bmiHealthyB payload.bmi).toNat + (glucoseHealthyB payload.glucose).toNat +
    (hba1cHealthyB payload.hba1c).toNat +
    (bpHealthyB payload.systolicBP payload.diastolicBP).toNat +
    (exerciseHealthyB context.exerciseFrequency).toNat +
    (smokingHealthyB context.smokingStatus).toNat +
    (noFamilyHistoryB context.familyHistoryFlag).toNat

/-- The spec's calibration rule, stated from its words (§4.3): raise to at
least 96 when 4+ healthy indicators confirm a sub-20 score, else to at
least 90 on 2+ indicators, then clamp to [60, 99.5]. -/
def calibrateSpec (baseConfidence : ℚ) (healthyIndicatorCount : Nat)
    (adjustedScore : ℚ) : ℚ :=
  let c :=
    if 4 ≤ healthyIndicatorCount ∧ adjustedScore < 20 then max baseConfidence 96
    else if 2 ≤ healthyIndicatorCount then max baseConfidence 90
    else baseConfidence
  clamp c 60 q99_5

/-! ### Concrete inputs for witnesses and counterexamples -/

/-- Payload with every signal absent. -/
def zeroPayload : Payload := {}

/-- Context with empty strings and an unset family-history flag. -/
def emptyContext : Context := {}

/-- At-risk payload whose adjusted score sits in the very-high band. -/
def pW1 : Payload := { riskScore := 80 }

/-- Payload producing a general BMI line followed by a glucose critical. -/
def p2x : Payload := { bmi := 27, glucose := 130 }

/-- Measurement for which all seven healthy bands fire. -/
def p4x : Payload :=
  { bmi := 22, glucose := 85, hba1c := 5, systolicBP := 110, diastolicBP := 70 }

/-- Context for which the exercise, smoking and family-history healthy
bands fire. -/
def c4x : Context := { exerciseFrequency := "moderate", smokingStatus := "never" }

/-- A classifier stub used by the `/predict` witnesses. -/
def rawW : RawPrediction := ⟨0, 0, 0, 0, 0⟩

/-- A request supplying only `age`: seven required fields are missing. -/
def data7 : RequestData := [("age", .num 40)]

/-- A classifier stub with mid probabilities for the `/predict` scenarios. -/
def raw9 : RawPrediction := ⟨1, 50, 50, 50, 80⟩

/-- A complete request whose only blood-pressure signal is
`bloodPressure = 100`. -/
def data9 : RequestData :=
  [("age", .num 40), ("bmi", .num 0), ("glucose", .num 0),
   ("bloodPressure", .num 100), ("insulin", .num 0), ("skinThickness", .num 0),
   ("pregnancies", .num 0), ("familyHistory", .num 0)]

/-- A complete request whose only blood-pressure signal is
`bloodPressure = 85`. -/
def dataW9 : RequestData :=
  [("age", .num 40), ("bmi", .num 0), ("glucose", .num 0),
   ("bloodPressure", .num 85), ("insulin", .num 0), ("skinThickness", .num 0),
   ("pregnancies", .num 0), ("familyHistory", .num 0)]

/-! ### Theorems -/

theorem q18_5_eq : q18_5 = 18.5 := by
  rw [q18_5, Rat.mk'_eq_divInt, Rat.divInt_eq_div]; norm_num

theorem q24_9_eq : q24_9 = 24.9 := by
  rw [q24_9, Rat.mk'_eq_divInt, Rat.divInt_eq_div]; norm_num

theorem q5_7_eq : q5_7 = 5.7 := by
  rw [q5_7, Rat.mk'_eq_divInt, Rat.divInt_eq_div]; norm_num

theorem q6_5_eq : q6_5 = 6.5 := by
  rw [q6_5, Rat.mk'_eq_divInt, Rat.divInt_eq_div]; norm_num

theorem q99_5_eq : q99_5 = 99.5 := by
  rw [q99_5, Rat.mk'_eq_divInt, Rat.divInt_eq_div]; norm_num

/-- C3: for every base score, measurement and context, the adjusted score is
exactly `clamp(baseScore + delta, 0, 100)` for the accumulated delta, and
therefore always lies in [0, 100]. -/
theorem c3_adjusted_score_clamped (base : ℚ) (p : Payload) (c : Context) :
    apply_contextual_adjustments base p c =
      (clamp (base + (adjustmentTotals p c).1) 0 100, (adjustmentTotals p c).2) ∧
    0 ≤ (apply_contextual_adjustments base p c).1 ∧
    (apply_contextual_adjustments base p c).1 ≤ 100 := by
  refine ⟨rfl, le_max_left _ _, ?_⟩
  exact max_le (by norm_num) (min_le_left _ _)

/-- C5: the calibrated confidence equals the spec's
`clamp(c, 60, 99.5)` formula, always lies in [60, 99.5], and never falls
below a base confidence already inside those bounds. -/
theorem c5_calibrate_spec (b : ℚ) (h : Nat) (a : ℚ) :
    calibrate b h a = calibrateSpec b h a ∧
    60 ≤ calibrate b h a ∧ calibrate b h a ≤ 99.5 ∧
    (60 ≤ b → b ≤ q99_5 → b ≤ calibrate b h a) := by
  refine ⟨rfl, le_max_left _ _, ?_, ?_⟩
  · calc calibrate b h a ≤ q99_5 :=
          max_le (by rw [q99_5_eq]; norm_num) (min_le_left _ _)
      _ = 99.5 := q99_5_eq
  · intro h60 h995
    have hbc : b ≤
        (if 4 ≤ h ∧ a < 20 then max b 96 else if 2 ≤ h then max b 90 else b) := by
      split_ifs <;> first | exact le_max_left _ _ | exact le_rfl
    have h1 : b ≤ min q99_5
        (if 4 ≤ h ∧ a < 20 then max b 96 else if 2 ≤ h then max b 90 else b) :=
      le_min h995 hbc
    exact le_trans h1 (le_max_right _ _)

/-- C5 witness: a base confidence of 80 inside the bounds is never lowered. -/
theorem c5_witness :
    (60 : ℚ) ≤ 80 ∧ (80 : ℚ) ≤ q99_5 ∧ (80 : ℚ) ≤ calibrate 80 0 50 :=
  ⟨by decide, by decide, (c5_calibrate_spec 80 0 50).2.2.2 (by decide) (by decide)⟩

/-- C8: the synthesizer's output for a prediabetic patient is identical to
its output for `diabetesStatus = "none"`: the status is recognized but
influences no rule. -/
theorem c8_prediabetic_same_as_none (p : Payload) (g e s a : String) (f : Bool) :
    generate_personalized_recommendations p ⟨g, e, s, a, f, "prediabetic"⟩ =
      generate_personalized_recommendations p ⟨g, e, s, a, f, "none"⟩ := rfl

/-- C10: an unset family-history flag is treated as confirmed absence: it
always subtracts 2 and adds a healthy indicator, and on an otherwise empty
input the engine returns exactly `(clamp(base - 2, 0, 100), 1)`. -/
theorem c10_family_history_default (base : ℚ) (p : Payload) (c : Context)
    (hflag : c.familyHistoryFlag = false) :
    adjustmentTotals p c =
      ((preFamilyTotals p c).1 - 2, (preFamilyTotals p c).2 + 1) ∧
    apply_contextual_adjustments base zeroPayload emptyContext =
      (clamp (base - 2) 0 100, 1) := by
  constructor
  · rw [adjustmentTotals, familyAdjStep, hflag]; simp
  · have hpre : adjustmentTotals zeroPayload emptyContext = (0 - 2, 0 + 1) := by
      rw [adjustmentTotals,
        show preFamilyTotals zeroPayload emptyContext = ((0 : ℚ), 0) from by decide]
      rfl
    rw [apply_contextual_adjustments, hpre]
    have h2 : base + (0 - 2) = base - 2 := by ring
    rw [h2]

/-- C10 witness: the default context has the flag unset, and a base of 10 on
an empty measurement lands on `(clamp 8 0 100, 1)`. -/
theorem c10_witness :
    emptyContext.familyHistoryFlag = false ∧
    apply_contextual_adjustments 10 zeroPayload emptyContext =
      (clamp (10 - 2) 0 100, 1) :=
  ⟨rfl, (c10_family_history_default 10 zeroPayload emptyContext rfl).2⟩

theorem categorize_risk_eq_ite (s : ℚ) :
    categorize_risk s =
      if s < 20 then "Low"
      else if s < 50 then "Moderate"
      else if s < 75 then "High"
      else "Very High" := by
  by_cases h1 : s < 20 <;> by_cases h2 : s < 50 <;> by_cases h3 : s < 75 <;>
    by_cases h4 : s < 101 <;>
    simp [categorize_risk, RISK_THRESHOLDS, List.find?, h1, h2, h3, h4] <;>
    linarith

/-- C6: the categorizer realizes the ascending first-match table — Low below
20, Moderate on [20, 50), High on [50, 75), Very High from 75 — and the
resulting severity is monotone in the score. -/
theorem c6_categorize_total (s : ℚ) :
    (categorize_risk s = "Low" ↔ s < 20) ∧
    (categorize_risk s = "Moderate" ↔ 20 ≤ s ∧ s < 50) ∧
    (categorize_risk s = "High" ↔ 50 ≤ s ∧ s < 75) ∧
    (categorize_risk s = "Very High" ↔ 75 ≤ s) ∧
    (∀ t, s ≤ t → severity (categorize_risk s) ≤ severity (categorize_risk t)) := by
  have hiff : ∀ lab : String, categorize_risk s = lab ↔
      (if s < 20 then "Low"
       else if s < 50 then "Moderate"
       else if s < 75 then "High"
       else "Very High") = lab := by
    intro lab; rw [categorize_risk_eq_ite]
  refine ⟨?_, ?_, ?_, ?_, ?_⟩
  · rw [hiff]
    split_ifs with h1 h2 h3 <;> simp_all [not_lt, not_and] <;>
      first
        | (constructor <;> linarith)
        | (intros <;> linarith)
        | linarith
  · rw [hiff]
    split_ifs with h1 h2 h3 <;> simp_all [not_lt, not_and] <;>
      first
        | (constructor <;> linarith)
        | (intros <;> linarith)
        | linarith
  · rw [hiff]
    split_ifs with h1 h2 h3 <;> simp_all [not_lt, not_and] <;>
      first
        | (constructor <;> linarith)
        | (intros <;> linarith)
        | linarith
  · rw [hiff]
    split_ifs with h1 h2 h3 <;> simp_all [not_lt, not_and] <;>
      first
        | (constructor <;> linarith)
        | (intros <;> linarith)
        | linarith
  · intro t hst
    rw [categorize_risk_eq_ite, categorize_risk_eq_ite]
    split_ifs <;> first | decide | linarith

/-- C6 witness: severity is monotone across the 20/50 boundary. -/
theorem c6_witness :
    (10 : ℚ) ≤ 60 ∧ severity (categorize_risk 10) ≤ severity (categorize_risk 60) :=
  ⟨by decide, (c6_categorize_total 10).2.2.2.2 60 (by decide)⟩

theorem bmiAdjStep_snd (b : ℚ) (st : ℚ × Nat) :
    (bmiAdjStep b st).2 = st.2 + (bmiHealthyB b).toNat := by
  rw [bmiAdjStep, bmiHealthyB]
  split_ifs with h1 h2 h3 h4 <;> simp_all

theorem glucoseAdjStep_snd (g : ℚ) (st : ℚ × Nat) :
    (glucoseAdjStep g st).2 = st.2 + (glucoseHealthyB g).toNat := by
  rw [glucoseAdjStep, glucoseHealthyB]
  split_ifs with h1 h2 h3 h4 <;> simp_all

theorem hba1cAdjStep_snd (h : ℚ) (st : ℚ × Nat) :
    (hba1cAdjStep h st).2 = st.2 + (hba1cHealthyB h).toNat := by
  rw [hba1cAdjStep, hba1cHealthyB]
  split_ifs with h1 h2 h3 <;> simp_all

theorem bpAdjStep_snd (s d : ℚ) (st : ℚ × Nat) :
    (bpAdjStep s d st).2 = st.2 + (bpHealthyB s d).toNat := by
  rw [bpAdjStep, bpHealthyB]
  split_ifs with h1 h2 h3 <;> simp_all <;> tauto

theorem exerciseAdjStep_snd (e : String) (st : ℚ × Nat) :
    (exerciseAdjStep e st).2 = st.2 + (exerciseHealthyB e).toNat := by
  rw [exerciseAdjStep, exerciseHealthyB]
  split_ifs with h1 h2 <;> simp_all

theorem smokingAdjStep_snd (sm : String) (st : ℚ × Nat) :
    (smokingAdjStep sm st).2 = st.2 + (smokingHealthyB sm).toNat := by
  rw [smokingAdjStep, smokingHealthyB]
  split_ifs with h1 h2 <;> simp_all

theorem alcoholAdjStep_snd (al : String) (st : ℚ × Nat) :
    (alcoholAdjStep al st).2 = st.2 := by
  rw [alcoholAdjStep]
  split_ifs <;> simp

theorem familyAdjStep_snd (f : Bool) (st : ℚ × Nat) :
    (familyAdjStep f st).2 = st.2 + (noFamilyHistoryB f).toNat := by
  rw [familyAdjStep, noFamilyHistoryB]
  cases f <;> simp

/-- C4 (amended): the healthy-indicator count is exactly one increment per
signal whose healthy band fired, over the seven counted signals — so it is
at most 7 (not 6: BMI, glucose, HbA1c, blood pressure, exercise, smoking
and no-family-history can all fire together). -/
theorem c4_healthy_count_amended (base : ℚ) (p : Payload) (c : Context) :
    (apply_contextual_adjustments base p c).2 = healthySignalCount p c ∧
    (apply_contextual_adjustments base p c).2 ≤ 7 := by
  have hcount : (apply_contextual_adjustments base p c).2 = healthySignalCount p c := by
    show (adjustmentTotals p c).2 = _
    rw [adjustmentTotals, preFamilyTotals, familyAdjStep_snd, alcoholAdjStep_snd,
      smokingAdjStep_snd, exerciseAdjStep_snd, bpAdjStep_snd, hba1cAdjStep_snd,
      glucoseAdjStep_snd, bmiAdjStep_snd, healthySignalCount]
    omega
  refine ⟨hcount, ?_⟩
  rw [hcount, healthySignalCount]
  have h1 := Bool.toNat_lt (bmiHealthyB p.bmi)
  have h2 := Bool.toNat_lt (glucoseHealthyB p.glucose)
  have h3 := Bool.toNat_lt (hba1cHealthyB p.hba1c)
  have h4 := Bool.toNat_lt (bpHealthyB p.systolicBP p.diastolicBP)
  have h5 := Bool.toNat_lt (exerciseHealthyB c.exerciseFrequency)
  have h6 := Bool.toNat_lt (smokingHealthyB c.smokingStatus)
  have h7 := Bool.toNat_lt (noFamilyHistoryB c.familyHistoryFlag)
  omega

/-- C4 counterexample: on `p4x`/`c4x` all seven healthy bands fire and the
count is 7, refuting the claimed bound of 6. -/
theorem c4_counterexample :
    (apply_contextual_adjustments 0 p4x c4x).2 = 7 ∧
    ¬ (apply_contextual_adjustments 0 p4x c4x).2 ≤ 6 := by
  constructor <;> decide

/-- C7 (amended): on a non-empty request with a required field absent,
`/predict` fails with `InvalidInput` listing exactly the missing required
fields — independently of the classifier output, i.e. before any scoring
stage; on an empty request body it instead fails with the generic
no-data error, reporting no field names; and it never raises
`InvalidInput` when all required fields are present. -/
theorem c7_required_field_validation (raw raw2 : RawPrediction)
    (data : RequestData) :
    (∀ f, f ∈ missing_fields data ↔ f ∈ required_fields ∧ rget data f = none) ∧
    (data = [] → predict_diabetes_risk true raw data = .error .noData) ∧
    (missing_fields data ≠ [] → data ≠ [] →
      predict_diabetes_risk true raw data =
        .error (.invalidInput (missing_fields data)) ∧
      predict_diabetes_risk true raw data = predict_diabetes_risk true raw2 data) ∧
    (missing_fields data = [] →
      ∀ ms, predict_diabetes_risk true raw data ≠ .error (.invalidInput ms)) := by
  refine ⟨?_, ?_, ?_, ?_⟩
  · intro f
    simp [missing_fields, List.mem_filter]
  · intro hdata
    subst hdata
    rfl
  · intro hne hdata
    rcases hms : missing_fields data with _ | ⟨m, ms⟩
    · exact absurd hms hne
    · constructor <;> simp [predict_diabetes_risk, hdata, hms]
  · intro h0 ms
    by_cases hdata : data = [] <;>
      simp [predict_diabetes_risk, hdata, h0]

/-- C7 witness: a request holding only `age` aborts with the seven missing
field names. -/
theorem c7_witness :
    missing_fields data7 ≠ [] ∧ data7 ≠ [] ∧
    predict_diabetes_risk true rawW data7 =
      .error (.invalidInput (missing_fields data7)) :=
  ⟨by decide, by decide,
    ((c7_required_field_validation rawW rawW data7).2.2.1 (by decide)
      (by decide)).1⟩

/-- C7 counterexample: on an empty request body every required field is
absent, yet `/predict` returns the generic no-data error, not an
`InvalidInput` error carrying the missing field names. -/
theorem c7_counterexample :
    missing_fields ([] : RequestData) = required_fields ∧
    predict_diabetes_risk true rawW [] = .error .noData ∧
    predict_diabetes_risk true rawW [] ≠
      .error (.invalidInput (missing_fields ([] : RequestData))) := by
  refine ⟨by decide, rfl, ?_⟩
  intro h
  simp [predict_diabetes_risk] at h

theorem take8_head (l : List Rec) : (l.take 8).head? = l.head? := by
  cases l <;> simp

theorem bandAssembly_head (hd : Bool) (rs h : ℚ) (l : List Rec) (r : Rec)
    (hb : riskBandLine hd rs = some r) :
    (bandAssembly hd rs h l).head? = some r := by
  cases hd <;> rw [riskBandLine] at hb <;> rw [bandAssembly]
  · simp only [Bool.false_eq_true, if_false] at hb ⊢
    split_ifs at hb ⊢ <;> simp_all
  · simp only [if_true] at hb ⊢
    rw [Option.some_inj] at hb
    split_ifs at hb ⊢ <;> simp_all

/-- C1: the synthesizer returns at most 8 entries, and whenever a risk-band
condition holds (always for diagnosed patients, score ≥ 25 for at-risk
patients) the entry at position 0 is the band summary line selected by the
4-way band for that patient mode. -/
theorem c1_synth_band_anchor (p : Payload) (c : Context) :
    (generate_personalized_recommendations p c).length ≤ 8 ∧
    ∀ r, riskBandLine (hasDiabetesStatus c.diabetesStatus) p.riskScore = some r →
      (generate_personalized_recommendations p c).head? = some r := by
  constructor
  · show ((bandAssembly _ _ _ _).take 8).length ≤ 8
    simp [List.length_take]
  · intro r hr
    show ((bandAssembly _ _ _ _).take 8).head? = some r
    rw [take8_head]
    exact bandAssembly_head _ _ _ _ _ hr

/-- C1 witness: an at-risk score of 80 puts the very-high prevention band
line at position 0. -/
theorem c1_witness :
    (generate_personalized_recommendations pW1 emptyContext).head? =
      some Rec.bandVeryHighPrev :=
  (c1_synth_band_anchor pW1 emptyContext).2 Rec.bandVeryHighPrev (by decide)

theorem bmiRecStep_spec (b : ℚ) (C P : List (String × Rec)) (R : List Rec) :
    ∃ cs ps rs,
      bmiRecStep b ⟨C, P, R⟩ = ⟨C ++ cs, P ++ ps, R ++ rs⟩ ∧
      (∀ x ∈ cs, isCriticalMsg x.2 = true ∧ isLateMsg x.2 = false ∧
        metricIdx x.2 = 0) ∧
      (∀ x ∈ ps, isCriticalMsg x.2 = false) ∧
      (∀ x ∈ rs, isCriticalMsg x = false ∧ isLateMsg x = false) := by
  rw [bmiRecStep]
  split_ifs
  · exact ⟨[("BMI", .bmiUnderweight b)], [], [], by simp,
      by simp [isCriticalMsg, isLateMsg, metricIdx], by simp, by simp⟩
  · exact ⟨[("BMI", .bmiObese b)], [], [], by simp,
      by simp [isCriticalMsg, isLateMsg, metricIdx], by simp, by simp⟩
  · exact ⟨[], [], [.bmiOverweight b], by simp, by simp, by simp,
      by simp [isCriticalMsg, isLateMsg]⟩
  · exact ⟨[], [("BMI", .bmiHealthy b)], [], by simp, by simp,
      by simp [isCriticalMsg], by simp⟩
  · exact ⟨[], [], [], by simp, by simp, by simp, by simp⟩

theorem glucoseRecStep_spec (hd : Bool) (g : ℚ) (C P : List (String × Rec))
    (R : List Rec) :
    ∃ cs ps rs,
      glucoseRecStep hd g ⟨C, P, R⟩ = ⟨C ++ cs, P ++ ps, R ++ rs⟩ ∧
      (∀ x ∈ cs, isCriticalMsg x.2 = true ∧ isLateMsg x.2 = false ∧
        metricIdx x.2 = 1) ∧
      (∀ x ∈ ps, isCriticalMsg x.2 = false) ∧
      (∀ x ∈ rs, isCriticalMsg x = false ∧ isLateMsg x = false) := by
  rw [glucoseRecStep]
  split_ifs
  · exact ⟨[("Glucose", .glucoseVeryHighMgmt g)], [], [], by simp,
      by simp [isCriticalMsg, isLateMsg, metricIdx], by simp, by simp⟩
  · exact ⟨[("Glucose", .glucoseElevatedMgmt g)], [], [], by simp,
      by simp [isCriticalMsg, isLateMsg, metricIdx], by simp, by simp⟩
  · exact ⟨[("Glucose", .glucoseLowMgmt g)], [], [], by simp,
      by simp [isCriticalMsg, isLateMsg, metricIdx], by simp, by simp⟩
  · exact ⟨[], [("Glucose", .glucoseTargetMgmt g)], [], by simp, by simp,
      by simp [isCriticalMsg], by simp⟩
  · exact ⟨[], [], [.glucoseSlightlyAboveMgmt g], by simp, by simp, by simp,
      by simp [isCriticalMsg, isLateMsg]⟩
  · exact ⟨[("Glucose", .glucoseDiabetesRange g)], [], [], by simp,
      by simp [isCriticalMsg, isLateMsg, metricIdx], by simp, by simp⟩
  · exact ⟨[("Glucose", .glucosePrediabetes g)], [], [], by simp,
      by simp [isCriticalMsg, isLateMsg, metricIdx], by simp, by simp⟩
  · exact ⟨[], [], [.glucoseLowPrev g], by simp, by simp, by simp,
      by simp [isCriticalMsg, isLateMsg]⟩
  · exact ⟨[], [("Glucose", .glucoseExcellent g)], [], by simp, by simp,
      by simp [isCriticalMsg], by simp⟩
  · exact ⟨[], [], [], by simp, by simp, by simp, by simp⟩

theorem hba1cRecStep_spec (hd : Bool) (h : ℚ) (C P : List (String × Rec))
    (R : List Rec) :
    ∃ cs ps rs,
      hba1cRecStep hd h ⟨C, P, R⟩ = ⟨C ++ cs, P ++ ps, R ++ rs⟩ ∧
      (∀ x ∈ cs, isCriticalMsg x.2 = true ∧ isLateMsg x.2 = false ∧
        metricIdx x.2 = 2) ∧
      (∀ x ∈ ps, isCriticalMsg x.2 = false) ∧
      (∀ x ∈ rs, isCriticalMsg x = false ∧ isLateMsg x = false) := by
  rw [hba1cRecStep]
  split_ifs
  · exact ⟨[("HbA1c", .hba1cVeryHighMgmt h)], [], [], by simp,
      by simp [isCriticalMsg, isLateMsg, metricIdx], by simp, by simp⟩
  · exact ⟨[("HbA1c", .hba1cAboveTargetMgmt h)], [], [], by simp,
      by simp [isCriticalMsg, isLateMsg, metricIdx], by simp, by simp⟩
  · exact ⟨[], [], [.hba1cSlightlyAboveMgmt h], by simp, by simp, by simp,
      by simp [isCriticalMsg, isLateMsg]⟩
  · exact ⟨[], [("HbA1c", .hba1cAtTargetMgmt h)], [], by simp, by simp,
      by simp [isCriticalMsg], by simp⟩
  · exact ⟨[("HbA1c", .hba1cDiabetes h)], [], [], by simp,
      by simp [isCriticalMsg, isLateMsg, metricIdx], by simp, by simp⟩
  · exact ⟨[("HbA1c", .hba1cPrediabetes h)], [], [], by simp,
      by simp [isCriticalMsg, isLateMsg, metricIdx], by simp, by simp⟩
  · exact ⟨[], [("HbA1c", .hba1cGood h)], [], by simp, by simp,
      by simp [isCriticalMsg], by simp⟩
  · exact ⟨[], [], [], by simp, by simp, by simp, by simp⟩

theorem bpRecStep_spec (s d : ℚ) (C P : List (String × Rec)) (R : List Rec) :
    ∃ cs ps rs,
      bpRecStep s d ⟨C, P, R⟩ = ⟨C ++ cs, P ++ ps, R ++ rs⟩ ∧
      (∀ x ∈ cs, isCriticalMsg x.2 = true ∧ isLateMsg x.2 = false ∧
        metricIdx x.2 = 3) ∧
      (∀ x ∈ ps, isCriticalMsg x.2 = false) ∧
      (∀ x ∈ rs, isCriticalMsg x = false ∧ isLateMsg x = false) := by
  rw [bpRecStep]
  split_ifs
  · exact ⟨[("Blood Pressure", .bpHypertension s d)], [], [], by simp,
      by simp [isCriticalMsg, isLateMsg, metricIdx], by simp, by simp⟩
  · exact ⟨[], [], [.bpElevated s d], by simp, by simp, by simp,
      by simp [isCriticalMsg, isLateMsg]⟩
  · exact ⟨[], [("Blood Pressure", .bpOptimal s d)], [], by simp, by simp,
      by simp [isCriticalMsg], by simp⟩
  · exact ⟨[], [], [], by simp, by simp, by simp, by simp⟩

theorem insulinRecStep_spec (i : ℚ) (C P : List (String × Rec)) (R : List Rec) :
    ∃ cs ps rs,
      insulinRecStep i ⟨C, P, R⟩ = ⟨C ++ cs, P ++ ps, R ++ rs⟩ ∧
      (∀ x ∈ cs, isCriticalMsg x.2 = true ∧ isLateMsg x.2 = false ∧
        metricIdx x.2 = 4) ∧
      (∀ x ∈ ps, isCriticalMsg x.2 = false) ∧
      (∀ x ∈ rs, isCriticalMsg x = false ∧ isLateMsg x = false) := by
  rw [insulinRecStep]
  split_ifs
  · exact ⟨[], [], [.insulinElevated i], by simp, by simp, by simp,
      by simp [isCriticalMsg, isLateMsg]⟩
  · exact ⟨[], [], [.insulinLow i], by simp, by simp, by simp,
      by simp [isCriticalMsg, isLateMsg]⟩
  · exact ⟨[], [("Insulin", .insulinNormal i)], [], by simp, by simp,
      by simp [isCriticalMsg], by simp⟩
  · exact ⟨[], [], [], by simp, by simp, by simp, by simp⟩

theorem exerciseRecStep_spec (e : String) (v : ℚ) (R : List Rec)
    (P : List (String × Rec)) :
    ∃ xs ys, exerciseRecStep e v (R, P) = (R ++ xs, P ++ ys) ∧
      (∀ x ∈ xs, isCriticalMsg x = false) ∧
      (∀ y ∈ ys, isCriticalMsg y.2 = false) := by
  rw [exerciseRecStep]
  split_ifs
  · exact ⟨[.exerciseIncrease], [], by simp, by simp [isCriticalMsg], by simp⟩
  · exact ⟨[], [("Exercise", .exercisePositive)], by simp, by simp,
      by simp [isCriticalMsg]⟩
  · exact ⟨[.exerciseContinue], [], by simp, by simp [isCriticalMsg], by simp⟩
  · exact ⟨[], [], by simp, by simp, by simp⟩

theorem smokingRecStep_spec (s : String) (v : ℚ) (R : List Rec)
    (P : List (String × Rec)) :
    ∃ xs ys, smokingRecStep s v (R, P) = (R ++ xs, P ++ ys) ∧
      (∀ x ∈ xs, isCriticalMsg x = false) ∧
      (∀ y ∈ ys, isCriticalMsg y.2 = false) := by
  rw [smokingRecStep]
  split_ifs
  · exact ⟨[.smokingQuit], [], by simp, by simp [isCriticalMsg], by simp⟩
  · exact ⟨[.smokingFormer], [], by simp, by simp [isCriticalMsg], by simp⟩
  · exact ⟨[], [("Smoking", .smokingPositive)], by simp, by simp,
      by simp [isCriticalMsg]⟩
  · exact ⟨[], [], by simp, by simp, by simp⟩
  · exact ⟨[], [], by simp, by simp, by simp⟩

theorem alcoholRecStep_spec (a : String) (v : ℚ) (R : List Rec)
    (P : List (String × Rec)) :
    ∃ xs ys, alcoholRecStep a v (R, P) = (R ++ xs, P ++ ys) ∧
      (∀ x ∈ xs, isCriticalMsg x = false) ∧
      (∀ y ∈ ys, isCriticalMsg y.2 = false) := by
  rw [alcoholRecStep]
  split_ifs
  · exact ⟨[.alcoholReduce], [], by simp, by simp [isCriticalMsg], by simp⟩
  · exact ⟨[], [("Alcohol", .alcoholPositive)], by simp, by simp,
      by simp [isCriticalMsg]⟩
  · exact ⟨[], [], by simp, by simp, by simp⟩
  · exact ⟨[], [], by simp, by simp, by simp⟩

theorem familyRecStep_spec (f : Bool) (v : ℚ) (R : List Rec)
    (P : List (String × Rec)) :
    ∃ xs ys, familyRecStep f v (R, P) = (R ++ xs, P ++ ys) ∧
      (∀ x ∈ xs, isCriticalMsg x = false) ∧
      (∀ y ∈ ys, isCriticalMsg y.2 = false) := by
  rw [familyRecStep]
  split_ifs
  · exact ⟨[.familyHistoryScreening], [], by simp, by simp [isCriticalMsg],
      by simp⟩
  · exact ⟨[], [("Family History", .familyHistoryPositive)], by simp, by simp,
      by simp [isCriticalMsg]⟩
  · exact ⟨[], [], by simp, by simp, by simp⟩

theorem ageRecStep_spec (age : ℚ) (R : List Rec) :
    ∃ xs, ageRecStep age R = R ++ xs ∧ ∀ x ∈ xs, isCriticalMsg x = false := by
  rw [ageRecStep]
  split_ifs
  · exact ⟨[.age45Screening age], rfl, by simp [isCriticalMsg]⟩
  · exact ⟨[.age35Prevention], rfl, by simp [isCriticalMsg]⟩
  · exact ⟨[], by simp, by simp⟩

theorem addPositives_spec (P : List (String × Rec)) (R : List Rec) :
    ∃ added, addPositives R P = R ++ added ∧
      ∀ x ∈ added, ∃ pr ∈ P, x = pr.2 := by
  induction P generalizing R with
  | nil => exact ⟨[], by simp [addPositives], by simp⟩
  | cons q qs ih =>
    rw [addPositives, List.foldl_cons]
    by_cases hlen : R.length < 8
    · rw [if_pos hlen]
      obtain ⟨added, heq, hmem⟩ := ih (R ++ [q.2])
      refine ⟨[q.2] ++ added, ?_, ?_⟩
      · rw [← List.append_assoc]
        exact heq
      · intro x hx
        rcases List.mem_append.mp hx with hx | hx
        · exact ⟨q, List.mem_cons_self _ _, by simpa using hx⟩
        · obtain ⟨pr, hpr, hxe⟩ := hmem x hx
          exact ⟨pr, List.mem_cons_of_mem _ hpr, hxe⟩
    · rw [if_neg hlen]
      obtain ⟨added, heq, hmem⟩ := ih R
      refine ⟨added, heq, ?_⟩
      intro x hx
      obtain ⟨pr, hpr, hxe⟩ := hmem x hx
      exact ⟨pr, List.mem_cons_of_mem _ hpr, hxe⟩

theorem bandAssembly_spec (hd : Bool) (rs h : ℚ) (R : List Rec) :
    ∃ bl tl, bandAssembly hd rs h R = bl ++ R ++ tl ∧
      (∀ x ∈ bl, isCriticalMsg x = false ∧ isLateMsg x = false) ∧
      (∀ x ∈ tl, isCriticalMsg x = false) := by
  rw [bandAssembly]
  cases hd
  · simp only [Bool.false_eq_true, if_false]
    split_ifs
    · exact ⟨[.bandVeryHighPrev], [], by simp, by simp [isCriticalMsg, isLateMsg],
        by simp⟩
    · exact ⟨[.bandElevatedPrev], [], by simp, by simp [isCriticalMsg, isLateMsg],
        by simp⟩
    · exact ⟨[.bandModeratePrev], [], by simp, by simp [isCriticalMsg, isLateMsg],
        by simp⟩
    · exact ⟨[], [], by simp, by simp, by simp⟩
  · simp only [if_true]
    split_ifs
    · exact ⟨[.bandVeryHighMgmt],
        [.hba1cTargetReminder, .glucoseLogReminder, .medicationReminder,
         .checkupReminder],
        by simp, by simp [isCriticalMsg, isLateMsg], by simp [isCriticalMsg]⟩
    · exact ⟨[.bandElevatedMgmt],
        [.hba1cTargetReminder, .glucoseLogReminder, .medicationReminder,
         .checkupReminder],
        by simp, by simp [isCriticalMsg, isLateMsg], by simp [isCriticalMsg]⟩
    · exact ⟨[.bandModerateMgmt],
        [.hba1cTargetReminder, .glucoseLogReminder, .medicationReminder,
         .checkupReminder],
        by simp, by simp [isCriticalMsg, isLateMsg], by simp [isCriticalMsg]⟩
    · exact ⟨[.bandGoodControlMgmt],
        [.hba1cTargetReminder, .glucoseLogReminder, .medicationReminder,
         .checkupReminder],
        by simp, by simp [isCriticalMsg, isLateMsg], by simp [isCriticalMsg]⟩
    · exact ⟨[.bandVeryHighMgmt],
        [.glucoseLogReminder, .medicationReminder, .checkupReminder],
        by simp, by simp [isCriticalMsg, isLateMsg], by simp [isCriticalMsg]⟩
    · exact ⟨[.bandElevatedMgmt],
        [.glucoseLogReminder, .medicationReminder, .checkupReminder],
        by simp, by simp [isCriticalMsg, isLateMsg], by simp [isCriticalMsg]⟩
    · exact ⟨[.bandModerateMgmt],
        [.glucoseLogReminder, .medicationReminder, .checkupReminder],
        by simp, by simp [isCriticalMsg, isLateMsg], by simp [isCriticalMsg]⟩
    · exact ⟨[.bandGoodControlMgmt],
        [.glucoseLogReminder, .medicationReminder, .checkupReminder],
        by simp, by simp [isCriticalMsg, isLateMsg], by simp [isCriticalMsg]⟩

theorem genRecsCore_eq (p : Payload) (e s a : String) (f hd : Bool)
    (C P : List (String × Rec)) (R : List Rec)
    (hst : insulinRecStep p.insulin
        (bpRecStep p.systolicBP p.diastolicBP
          (hba1cRecStep hd p.hba1c
            (glucoseRecStep hd p.glucose
              (bmiRecStep p.bmi ⟨[], [], []⟩)))) = ⟨C, P, R⟩) :
    genRecsCore p e s a f hd =
      (bandAssembly hd p.riskScore p.hba1c
        (addPositives
          (ageRecStep p.age
            (familyRecStep f p.riskScore
              (alcoholRecStep a p.riskScore
                (smokingRecStep s p.riskScore
                  (exerciseRecStep e p.riskScore
                    (R ++ (C.take 3).map Prod.snd, P))))).1)
          ((familyRecStep f p.riskScore
              (alcoholRecStep a p.riskScore
                (smokingRecStep s p.riskScore
                  (exerciseRecStep e p.riskScore
                    (R ++ (C.take 3).map Prod.snd, P))))).2.take 2))).take 8 := by
  simp only [genRecsCore]
  rw [hst]

/-- C2 (amended): at most 3 critical-issue messages appear, they occur in
the per-metric evaluation order BMI → Glucose → HbA1c → Blood Pressure →
Insulin, and every critical message precedes every lifestyle,
family-history, age and positive-factor line; however, the general metric
recommendations appended during per-metric evaluation (and the position-0
risk-band line) come before the critical messages, not after them. -/
theorem c2_critical_issues_amended (p : Payload) (c : Context) :
    (generate_personalized_recommendations p c).countP isCriticalMsg ≤ 3 ∧
    ((generate_personalized_recommendations p c).filter isCriticalMsg).Pairwise
      (fun x y => metricIdx x ≤ metricIdx y) ∧
    ∃ l₁ l₂, generate_personalized_recommendations p c = l₁ ++ l₂ ∧
      (∀ x ∈ l₁, isLateMsg x = false) ∧
      (∀ x ∈ l₂, isCriticalMsg x = false) := by
  obtain ⟨cs1, ps1, rs1, e1, hc1, hp1, hr1⟩ := bmiRecStep_spec p.bmi [] [] []
  simp only [List.nil_append] at e1
  obtain ⟨cs2, ps2, rs2, e2, hc2, hp2, hr2⟩ :=
    glucoseRecStep_spec (hasDiabetesStatus c.diabetesStatus) p.glucose cs1 ps1 rs1
  obtain ⟨cs3, ps3, rs3, e3, hc3, hp3, hr3⟩ :=
    hba1cRecStep_spec (hasDiabetesStatus c.diabetesStatus) p.hba1c
      (cs1 ++ cs2) (ps1 ++ ps2) (rs1 ++ rs2)
  obtain ⟨cs4, ps4, rs4, e4, hc4, hp4, hr4⟩ :=
    bpRecStep_spec p.systolicBP p.diastolicBP
      (cs1 ++ cs2 ++ cs3) (ps1 ++ ps2 ++ ps3) (rs1 ++ rs2 ++ rs3)
  obtain ⟨cs5, ps5, rs5, e5, hc5, hp5, hr5⟩ :=
    insulinRecStep_spec p.insulin
      (cs1 ++ cs2 ++ cs3 ++ cs4) (ps1 ++ ps2 ++ ps3 ++ ps4)
      (rs1 ++ rs2 ++ rs3 ++ rs4)
  have hst : insulinRecStep p.insulin
      (bpRecStep p.systolicBP p.diastolicBP
        (hba1cRecStep (hasDiabetesStatus c.diabetesStatus) p.hba1c
          (glucoseRecStep (hasDiabetesStatus c.diabetesStatus) p.glucose
            (bmiRecStep p.bmi ⟨[], [], []⟩)))) =
      ⟨cs1 ++ cs2 ++ cs3 ++ cs4 ++ cs5, ps1 ++ ps2 ++ ps3 ++ ps4 ++ ps5,
       rs1 ++ rs2 ++ rs3 ++ rs4 ++ rs5⟩ := by
    rw [e1, e2, e3, e4, e5]
  obtain ⟨xs1, ys1, f1, hx1, hy1⟩ :=
    exerciseRecStep_spec c.exerciseFrequency p.riskScore
      ((rs1 ++ rs2 ++ rs3 ++ rs4 ++ rs5) ++
        ((cs1 ++ cs2 ++ cs3 ++ cs4 ++ cs5).take 3).map Prod.snd)
      (ps1 ++ ps2 ++ ps3 ++ ps4 ++ ps5)
  obtain ⟨xs2, ys2, f2, hx2, hy2⟩ :=
    smokingRecStep_spec c.smokingStatus p.riskScore
      ((rs1 ++ rs2 ++ rs3 ++ rs4 ++ rs5) ++
        ((cs1 ++ cs2 ++ cs3 ++ cs4 ++ cs5).take 3).map Prod.snd ++ xs1)
      (ps1 ++ ps2 ++ ps3 ++ ps4 ++ ps5 ++ ys1)
  obtain ⟨xs3, ys3, f3, hx3, hy3⟩ :=
    alcoholRecStep_spec c.alcoholConsumption p.riskScore
      ((rs1 ++ rs2 ++ rs3 ++ rs4 ++ rs5) ++
        ((cs1 ++ cs2 ++ cs3 ++ cs4 ++ cs5).take 3).map Prod.snd ++ xs1 ++ xs2)
      (ps1 ++ ps2 ++ ps3 ++ ps4 ++ ps5 ++ ys1 ++ ys2)
  obtain ⟨xs4, ys4, f4, hx4, hy4⟩ :=
    familyRecStep_spec c.familyHistoryFlag p.riskScore
      ((rs1 ++ rs2 ++ rs3 ++ rs4 ++ rs5) ++
        ((cs1 ++ cs2 ++ cs3 ++ cs4 ++ cs5).take 3).map Prod.snd ++
        xs1 ++ xs2 ++ xs3)
      (ps1 ++ ps2 ++ ps3 ++ ps4 ++ ps5 ++ ys1 ++ ys2 ++ ys3)
  obtain ⟨xs5, g5, hx5⟩ :=
    ageRecStep_spec p.age
      ((rs1 ++ rs2 ++ rs3 ++ rs4 ++ rs5) ++
        ((cs1 ++ cs2 ++ cs3 ++ cs4 ++ cs5).take 3).map Prod.snd ++
        xs1 ++ xs2 ++ xs3 ++ xs4)
  obtain ⟨added, gadd, hadd⟩ :=
    addPositives_spec
      ((ps1 ++ ps2 ++ ps3 ++ ps4 ++ ps5 ++ ys1 ++ ys2 ++ ys3 ++ ys4).take 2)
      ((rs1 ++ rs2 ++ rs3 ++ rs4 ++ rs5) ++
        ((cs1 ++ cs2 ++ cs3 ++ cs4 ++ cs5).take 3).map Prod.snd ++
        xs1 ++ xs2 ++ xs3 ++ xs4 ++ xs5)
  obtain ⟨bl, tl, gband, hbl, htl⟩ :=
    bandAssembly_spec (hasDiabetesStatus c.diabetesStatus) p.riskScore p.hba1c
      ((rs1 ++ rs2 ++ rs3 ++ rs4 ++ rs5) ++
        ((cs1 ++ cs2 ++ cs3 ++ cs4 ++ cs5).take 3).map Prod.snd ++
        xs1 ++ xs2 ++ xs3 ++ xs4 ++ xs5 ++ added)
  have hgen : generate_personalized_recommendations p c =
      (bl ++
        ((rs1 ++ rs2 ++ rs3 ++ rs4 ++ rs5) ++
          ((cs1 ++ cs2 ++ cs3 ++ cs4 ++ cs5).take 3).map Prod.snd ++
          xs1 ++ xs2 ++ xs3 ++ xs4 ++ xs5 ++ added) ++ tl).take 8 := by
    show genRecsCore p c.exerciseFrequency c.smokingStatus
      c.alcoholConsumption c.familyHistoryFlag
      (hasDiabetesStatus c.diabetesStatus) = _
    rw [genRecsCore_eq p c.exerciseFrequency c.smokingStatus
      c.alcoholConsumption c.familyHistoryFlag
      (hasDiabetesStatus c.diabetesStatus) _ _ _ hst]
    simp only [f1, f2, f3, f4, g5, gadd, gband]
  have heq : generate_personalized_recommendations p c =
      ((bl ++ ((rs1 ++ rs2 ++ rs3 ++ rs4 ++ rs5) ++
          ((cs1 ++ cs2 ++ cs3 ++ cs4 ++ cs5).take 3).map Prod.snd)) ++
        (xs1 ++ xs2 ++ xs3 ++ xs4 ++ xs5 ++ added ++ tl)).take 8 := by
    rw [hgen]; simp only [List.append_assoc]
  have hRall : ∀ x ∈ rs1 ++ rs2 ++ rs3 ++ rs4 ++ rs5,
      isCriticalMsg x = false ∧ isLateMsg x = false := by
    intro x hx
    simp only [List.mem_append] at hx
    rcases hx with ((((hx | hx) | hx) | hx) | hx)
    exacts [hr1 x hx, hr2 x hx, hr3 x hx, hr4 x hx, hr5 x hx]
  have hCall : ∀ x ∈ cs1 ++ cs2 ++ cs3 ++ cs4 ++ cs5,
      isCriticalMsg x.2 = true ∧ isLateMsg x.2 = false := by
    intro x hx
    simp only [List.mem_append] at hx
    rcases hx with ((((hx | hx) | hx) | hx) | hx)
    exacts [⟨(hc1 x hx).1, (hc1 x hx).2.1⟩, ⟨(hc2 x hx).1, (hc2 x hx).2.1⟩,
      ⟨(hc3 x hx).1, (hc3 x hx).2.1⟩, ⟨(hc4 x hx).1, (hc4 x hx).2.1⟩,
      ⟨(hc5 x hx).1, (hc5 x hx).2.1⟩]
  have hPall : ∀ x ∈ ps1 ++ ps2 ++ ps3 ++ ps4 ++ ps5 ++ ys1 ++ ys2 ++ ys3 ++ ys4,
      isCriticalMsg x.2 = false := by
    intro x hx
    simp only [List.mem_append] at hx
    rcases hx with ((((((((hx | hx) | hx) | hx) | hx) | hx) | hx) | hx) | hx)
    exacts [hp1 x hx, hp2 x hx, hp3 x hx, hp4 x hx, hp5 x hx,
      hy1 x hx, hy2 x hx, hy3 x hx, hy4 x hx]
  have hCtaken : ∀ x ∈ ((cs1 ++ cs2 ++ cs3 ++ cs4 ++ cs5).take 3).map Prod.snd,
      isCriticalMsg x = true ∧ isLateMsg x = false := by
    intro x hx
    simp only [List.mem_map] at hx
    obtain ⟨pr, hpr, rfl⟩ := hx
    exact hCall pr (List.take_subset _ _ hpr)
  have hA : ∀ x ∈ bl ++ ((rs1 ++ rs2 ++ rs3 ++ rs4 ++ rs5) ++
      ((cs1 ++ cs2 ++ cs3 ++ cs4 ++ cs5).take 3).map Prod.snd),
      isLateMsg x = false := by
    intro x hx
    rcases List.mem_append.mp hx with hx | hx
    · exact (hbl x hx).2
    · rcases List.mem_append.mp hx with hx | hx
      · exact (hRall x hx).2
      · exact (hCtaken x hx).2
  have hB : ∀ x ∈ xs1 ++ xs2 ++ xs3 ++ xs4 ++ xs5 ++ added ++ tl,
      isCriticalMsg x = false := by
    intro x hx
    simp only [List.mem_append] at hx
    rcases hx with ((((((hx | hx) | hx) | hx) | hx) | hx) | hx)
    · exact hx1 x hx
    · exact hx2 x hx
    · exact hx3 x hx
    · exact hx4 x hx
    · exact hx5 x hx
    · obtain ⟨pr, hpr, rfl⟩ := hadd x hx
      exact hPall pr (List.take_subset _ _ hpr)
    · exact htl x hx
  have hz1 : (bl.countP isCriticalMsg) = 0 :=
    List.countP_eq_zero.mpr (fun a ha => by simp [(hbl a ha).1])
  have hz2 : ((rs1 ++ rs2 ++ rs3 ++ rs4 ++ rs5).countP isCriticalMsg) = 0 :=
    List.countP_eq_zero.mpr (fun a ha => by simp [(hRall a ha).1])
  have hz3 : ((xs1 ++ xs2 ++ xs3 ++ xs4 ++ xs5 ++ added ++ tl).countP
      isCriticalMsg) = 0 :=
    List.countP_eq_zero.mpr (fun a ha => by simp [hB a ha])
  have hlen : ((((cs1 ++ cs2 ++ cs3 ++ cs4 ++ cs5).take 3).map
      Prod.snd).countP isCriticalMsg) ≤ 3 := by
    refine le_trans (List.countP_le_length _) ?_
    simp [List.length_take]
  refine ⟨?_, ?_, ?_⟩
  · rw [heq]
    refine le_trans (List.Sublist.countP_le _ (List.take_sublist _ _)) ?_
    rw [List.countP_append, List.countP_append, List.countP_append]
    omega
  · have hpw : (cs1 ++ cs2 ++ cs3 ++ cs4 ++ cs5).Pairwise
        (fun x y => metricIdx x.2 ≤ metricIdx y.2) := by
      have pw1 : cs1.Pairwise (fun x y => metricIdx x.2 ≤ metricIdx y.2) :=
        List.pairwise_of_forall_mem_list
          (fun a ha b hb => by rw [(hc1 a ha).2.2, (hc1 b hb).2.2])
      have pw12 : (cs1 ++ cs2).Pairwise
          (fun x y => metricIdx x.2 ≤ metricIdx y.2) := by
        refine List.pairwise_append.mpr ⟨pw1, ?_, ?_⟩
        · exact List.pairwise_of_forall_mem_list
            (fun a ha b hb => by rw [(hc2 a ha).2.2, (hc2 b hb).2.2])
        · intro a ha b hb
          rw [(hc1 a ha).2.2, (hc2 b hb).2.2]; omega
      have pw123 : (cs1 ++ cs2 ++ cs3).Pairwise
          (fun x y => metricIdx x.2 ≤ metricIdx y.2) := by
        refine List.pairwise_append.mpr ⟨pw12, ?_, ?_⟩
        · exact List.pairwise_of_forall_mem_list
            (fun a ha b hb => by rw [(hc3 a ha).2.2, (hc3 b hb).2.2])
        · intro a ha b hb
          rw [(hc3 b hb).2.2]
          rcases List.mem_append.mp ha with ha | ha
          · rw [(hc1 a ha).2.2]; omega
          · rw [(hc2 a ha).2.2]; omega
      have pw1234 : (cs1 ++ cs2 ++ cs3 ++ cs4).Pairwise
          (fun x y => metricIdx x.2 ≤ metricIdx y.2) := by
        refine List.pairwise_append.mpr ⟨pw123, ?_, ?_⟩
        · exact List.pairwise_of_forall_mem_list
            (fun a ha b hb => by rw [(hc4 a ha).2.2, (hc4 b hb).2.2])
        · intro a ha b hb
          rw [(hc4 b hb).2.2]
          rcases List.mem_append.mp ha with ha | ha
          · rcases List.mem_append.mp ha with ha | ha
            · rw [(hc1 a ha).2.2]; omega
            · rw [(hc2 a ha).2.2]; omega
          · rw [(hc3 a ha).2.2]; omega
      refine List.pairwise_append.mpr ⟨pw1234, ?_, ?_⟩
      · exact List.pairwise_of_forall_mem_list
          (fun a ha b hb => by rw [(hc5 a ha).2.2, (hc5 b hb).2.2])
      · intro a ha b hb
        rw [(hc5 b hb).2.2]
        rcases List.mem_append.mp ha with ha | ha
        · rcases List.mem_append.mp ha with ha | ha
          · rcases List.mem_append.mp ha with ha | ha
            · rw [(hc1 a ha).2.2]; omega
            · rw [(hc2 a ha).2.2]; omega
          · rw [(hc3 a ha).2.2]; omega
        · rw [(hc4 a ha).2.2]; omega
    have pwTaken : (((cs1 ++ cs2 ++ cs3 ++ cs4 ++ cs5).take 3).map
        Prod.snd).Pairwise (fun x y => metricIdx x ≤ metricIdx y) :=
      List.pairwise_map.mpr
        (List.Pairwise.sublist (List.take_sublist 3 _) hpw)
    have hfbl : bl.filter isCriticalMsg = [] :=
      List.filter_eq_nil_iff.mpr (fun a ha => by simp [(hbl a ha).1])
    have hfrs : (rs1 ++ rs2 ++ rs3 ++ rs4 ++ rs5).filter isCriticalMsg = [] :=
      List.filter_eq_nil_iff.mpr (fun a ha => by simp [(hRall a ha).1])
    have hfB : (xs1 ++ xs2 ++ xs3 ++ xs4 ++ xs5 ++ added ++ tl).filter
        isCriticalMsg = [] :=
      List.filter_eq_nil_iff.mpr (fun a ha => by simp [hB a ha])
    have hfC : (((cs1 ++ cs2 ++ cs3 ++ cs4 ++ cs5).take 3).map
        Prod.snd).filter isCriticalMsg =
        ((cs1 ++ cs2 ++ cs3 ++ cs4 ++ cs5).take 3).map Prod.snd :=
      List.filter_eq_self.mpr (fun a ha => (hCtaken a ha).1)
    have hfilter : ((bl ++ ((rs1 ++ rs2 ++ rs3 ++ rs4 ++ rs5) ++
        ((cs1 ++ cs2 ++ cs3 ++ cs4 ++ cs5).take 3).map Prod.snd)) ++
        (xs1 ++ xs2 ++ xs3 ++ xs4 ++ xs5 ++ added ++ tl)).filter isCriticalMsg =
        ((cs1 ++ cs2 ++ cs3 ++ cs4 ++ cs5).take 3).map Prod.snd := by
      rw [List.filter_append, List.filter_append, List.filter_append,
        hfbl, hfrs, hfB, hfC]
      simp
    refine List.Pairwise.sublist ?_ pwTaken
    have hsub0 : ((generate_personalized_recommendations p c).filter
        isCriticalMsg).Sublist (((bl ++ ((rs1 ++ rs2 ++ rs3 ++ rs4 ++ rs5) ++
        ((cs1 ++ cs2 ++ cs3 ++ cs4 ++ cs5).take 3).map Prod.snd)) ++
        (xs1 ++ xs2 ++ xs3 ++ xs4 ++ xs5 ++ added ++ tl)).filter
          isCriticalMsg) := by
      rw [heq]
      exact List.Sublist.filter _ (List.take_sublist _ _)
    rw [hfilter] at hsub0
    exact hsub0
  · refine ⟨(bl ++ ((rs1 ++ rs2 ++ rs3 ++ rs4 ++ rs5) ++
        ((cs1 ++ cs2 ++ cs3 ++ cs4 ++ cs5).take 3).map Prod.snd)).take 8,
      (xs1 ++ xs2 ++ xs3 ++ xs4 ++ xs5 ++ added ++ tl).take
        (8 - (bl ++ ((rs1 ++ rs2 ++ rs3 ++ rs4 ++ rs5) ++
          ((cs1 ++ cs2 ++ cs3 ++ cs4 ++ cs5).take 3).map Prod.snd)).length),
      ?_, ?_, ?_⟩
    · rw [heq, List.take_append_eq_append_take]
    · intro x hx; exact hA x (List.take_subset _ _ hx)
    · intro x hx; exact hB x (List.take_subset _ _ hx)

/-- C2 counterexample: with BMI 27 and glucose 130 (at-risk mode, score 0)
the output starts with the general BMI overweight line — a non-critical,
non-band entry — before the critical glucose message, refuting the claimed
insertion order. -/
theorem c2_counterexample :
    generate_personalized_recommendations p2x emptyContext =
      [.bmiOverweight 27, .glucoseDiabetesRange 130, .familyHistoryPositive] ∧
    isCriticalMsg (Rec.bmiOverweight 27) = false ∧
    isCriticalMsg (Rec.glucoseDiabetesRange 130) = true ∧
    riskBandLine (hasDiabetesStatus emptyContext.diabetesStatus)
      p2x.riskScore = none := by
  refine ⟨by decide, by decide, by decide, by decide⟩

/-- C2 witness: the amended bound instantiated on the counterexample
input. -/
theorem c2_witness :
    (generate_personalized_recommendations p2x emptyContext).countP
      isCriticalMsg ≤ 3 :=
  (c2_critical_issues_amended p2x emptyContext).1

theorem lookup_append_of_ne {β : Type} (key : String) (l m : List (String × β))
    (h : ∀ x ∈ l, x.1 ≠ key) : (l ++ m).lookup key = m.lookup key := by
  induction l with
  | nil => rfl
  | cons q qs ih =>
    obtain ⟨k, v⟩ := q
    have hk : (key == k) = false := by
      have hne := h (k, v) (List.mem_cons_self _ _)
      simp only [ne_eq] at hne
      simp [beq_eq_false_iff_ne]
      exact fun he => hne he.symm
    simp only [List.cons_append, List.lookup, hk]
    exact ih (fun x hx => h x (List.mem_cons_of_mem _ hx))

theorem bmiInsightList_keys (q : ℚ) : ∀ x ∈ bmiInsightList q, x.1 = "bmi" := by
  rw [bmiInsightList]; split_ifs <;> simp

theorem glucoseInsightList_keys (q : ℚ) :
    ∀ x ∈ glucoseInsightList q, x.1 = "glucose" := by
  rw [glucoseInsightList]; split_ifs <;> simp

theorem insights_lookup_bp (p : Payload) (c : Context) :
    (build_metric_insights p c).lookup "bloodPressure" =
      (bpInsightList p.systolicBP p.diastolicBP ++
        (hba1cInsightList p.hba1c ++ insulinInsightList p.insulin)).lookup
        "bloodPressure" := by
  rw [build_metric_insights]
  simp only [List.append_assoc]
  rw [lookup_append_of_ne _ _ _
      (fun x hx => by rw [bmiInsightList_keys p.bmi x hx]; decide),
    lookup_append_of_ne _ _ _
      (fun x hx => by rw [glucoseInsightList_keys p.glucose x hx]; decide)]

/-- C9 (amended): an absent or falsy `systolicBP`/`diastolicBP` is replaced
by the request's `bloodPressure` before any rule runs, so every
blood-pressure rule sees `systolic = diastolic = b`; consequently the
blood-pressure insight is "warning" for `80 ≤ b < 90` and "critical" (not
"warning") for `b ≥ 90` — never "good" for `b ≥ 80`. -/
theorem c9_bp_fallback_amended (raw : RawPrediction) (data : RequestData)
    (b : ℚ)
    (hs : truthy (getD data "systolicBP") = false)
    (hd0 : truthy (getD data "diastolicBP") = false)
    (hb : getD data "bloodPressure" = .num b)
    (hm : missing_fields data = [])
    (hne : data ≠ []) :
    (buildPatientData data).systolicBP = b ∧
    (buildPatientData data).diastolicBP = b ∧
    predict_diabetes_risk true raw data = .ok (assessResult raw data) ∧
    (80 ≤ b → b < 90 →
      (assessResult raw data).metricInsights.lookup "bloodPressure" =
        some ⟨"warning", "Blood Pressure", "Elevated"⟩) ∧
    (90 ≤ b →
      (assessResult raw data).metricInsights.lookup "bloodPressure" =
        some ⟨"critical", "Blood Pressure", "Hypertension range"⟩) := by
  have hsys : (buildPatientData data).systolicBP = b := by
    simp [buildPatientData, pyOr, hs, hb, parse_float]
  have hdia : (buildPatientData data).diastolicBP = b := by
    simp [buildPatientData, pyOr, hd0, hb, parse_float]
  have hins : (assessResult raw data).metricInsights =
      build_metric_insights (buildPatientData data) (buildContext data) := rfl
  refine ⟨hsys, hdia, ?_, ?_, ?_⟩
  · simp [predict_diabetes_risk, hne, hm]
  · intro h80 h90
    rw [hins, insights_lookup_bp, hsys, hdia]
    have hb0 : b ≠ 0 := by intro h0; rw [h0] at h80; norm_num at h80
    have hlist : bpInsightList b b =
        [("bloodPressure", ⟨"warning", "Blood Pressure", "Elevated"⟩)] := by
      rw [bpInsightList, if_pos ⟨hb0, hb0⟩,
        if_neg (fun hcon => absurd h80 (not_le.mpr hcon.2)),
        if_pos ⟨by linarith, h90⟩]
    rw [hlist]
    simp [List.lookup]
  · intro h90
    rw [hins, insights_lookup_bp, hsys, hdia]
    have hb0 : b ≠ 0 := by intro h0; rw [h0] at h90; norm_num at h90
    have hlist : bpInsightList b b =
        [("bloodPressure", ⟨"critical", "Blood Pressure", "Hypertension range"⟩)] := by
      rw [bpInsightList, if_pos ⟨hb0, hb0⟩,
        if_neg (fun hcon => absurd hcon.2 (by linarith)),
        if_neg (fun hcon => absurd hcon.2 (not_lt.mpr h90))]
    rw [hlist]
    simp [List.lookup]

/-- C9 witness: with `bloodPressure = 85` and no explicit systolic or
diastolic value, both readings become 85 and the insight is "warning". -/
theorem c9_witness :
    (assessResult raw9 dataW9).metricInsights.lookup "bloodPressure" =
      some ⟨"warning", "Blood Pressure", "Elevated"⟩ :=
  (c9_bp_fallback_amended raw9 dataW9 85 (by decide) (by decide) (by decide)
    (by decide) (by decide)).2.2.2.1 (by decide) (by decide)

/-- C9 counterexample: for `bloodPressure = 100` — inside the claimed
"warning" range `80 ≤ b < 120` — the insight is "critical", not
"warning". -/
theorem c9_counterexample :
    truthy (getD data9 "systolicBP") = false ∧
    getD data9 "bloodPressure" = ReqValue.num 100 ∧
    (80 : ℚ) ≤ 100 ∧ (100 : ℚ) < 120 ∧
    predict_diabetes_risk true raw9 data9 = .ok (assessResult raw9 data9) ∧
    (assessResult raw9 data9).metricInsights.lookup "bloodPressure" =
      some ⟨"critical", "Blood Pressure", "Hypertension range"⟩ := by
  refine ⟨by decide, by decide, by decide, by decide, rfl, by decide⟩

end DiabetesApp
